import Mathlib

/-!
Shallow embedding of the OpenPype pipeline adapter scripts:

* src/openpype/hooks/pre_copy_last_published_workfile.py
  (class CopyLastPublishedWorkfile, method execute)
* src/openpype/hosts/blender/api/lib.py (function download_last_workfile)
* src/pype/plugins/nuke/publish/validate_rendered_frames.py
  (class ValidateRenderedFrames, method process)
* src/openpype/modules/kitsu/plugins/publish/integrate_kitsu_review.py
  (class IntegrateKitsuReview, method process)
* src/openpype/hosts/maya/plugins/publish/validate_look_color_space.py
  (class ValidateMayaColorSpace, method process)

External collaborators (database queries, settings profiles, file download,
path resolution, the clique collection library) are represented as explicit
oracle parameters or oracle fields, since the scripts only branch on the
values those collaborators return.
-/

/-- Python substring membership test: needle in hay. -/
def strContains (hay needle : String) : Bool :=
  (List.range (hay.length + 1)).any (fun i => needle.data.isPrefixOf (hay.data.drop i))

/-- A subset document as queried by get_subsets with fields
_id, name, data.family, data.families.  The families field models the keys of
the subset data families mapping (Python membership test "workfile" in dict
checks keys). -/
structure Subset where
  id : String
  name : String
  family : Option String
  families : List String
deriving DecidableEq

/-- The subset filter shared verbatim by CopyLastPublishedWorkfile.execute
(pre_copy_last_published_workfile.py lines 106-118) and download_last_workfile
(blender api/lib.py lines 371-383): keep subsets whose data.family is
"workfile" or whose data.families contain "workfile". -/
def filterWorkfileSubsets (subsets : List Subset) : List Subset :=
  subsets.filter (fun s => s.family == some "workfile" || s.families.contains "workfile")

/-- Python str.lower, modelled character-wise (the identifiers involved are
ASCII). -/
def strLower (s : String) : String := String.mk (s.data.map Char.toLower)

/-- The task-name match predicate used by both flows:
low_task_name in subset name lowered. -/
def subsetMatches (task_name : String) (s : Subset) : Bool :=
  strContains (strLower s.name) (strLower task_name)

/-- Subset selection of CopyLastPublishedWorkfile.execute
(pre_copy_last_published_workfile.py lines 106-141): filter to workfile
subsets; when the filtered list is empty the hook returns (no selection);
task-name matching runs only when more than one filtered subset exists and
takes the first match (the loop breaks); otherwise subset_id stays None and
the hook returns. -/
def hookSelectSubsetId (task_name : String) (subsets : List Subset) : Option String :=
  let filtered := filterWorkfileSubsets subsets
  if 1 < filtered.length then
    ((filtered.find? (subsetMatches task_name)).map (fun s => s.id))
  else
    none

/-- Result of subset selection in download_last_workfile. -/
inductive BlenderSelect where
  | noSubsets
  | unbound
  | selected (sid : String)
deriving DecidableEq

/-- Subset selection of download_last_workfile (blender api/lib.py lines
371-405): empty filtered list raises RuntimeError; with more than one
filtered subset the loop assigns subset_id on every match without breaking,
so the last match wins and, when no subset matches, subset_id is never bound
and the None test raises UnboundLocalError; with exactly one filtered subset
that subset is selected directly. -/
def blenderSelectSubsetId (task_name : String) (subsets : List Subset) : BlenderSelect :=
  let filtered := filterWorkfileSubsets subsets
  match filtered with
  | [] => .noSubsets
  | first :: rest =>
    if rest.isEmpty then
      .selected first.id
    else
      match (filtered.filter (subsetMatches task_name)).getLast? with
      | some s => .selected s.id
      | none => .unbound

/-- Last version fetched by the hook flow: get_last_version_by_subset_id
applied to the selected subset id (pre_copy_last_published_workfile.py lines
144-146); no selection means the hook returned before the query. -/
def hookLastVersion {V : Type} (versionOf : String → Option V)
    (task_name : String) (subsets : List Subset) : Option V :=
  (hookSelectSubsetId task_name subsets).bind versionOf

/-- Last version fetched by download_last_workfile:
get_last_version_by_subset_id applied to its selected subset id (blender
api/lib.py lines 408-410); error outcomes fetch nothing. -/
def blenderLastVersion {V : Type} (versionOf : String → Option V)
    (task_name : String) (subsets : List Subset) : Option V :=
  match blenderSelectSubsetId task_name subsets with
  | .selected sid => versionOf sid
  | _ => none

/-- A version document (fields _id, name are projected; only the id is
branched on downstream). -/
structure VersionDoc where
  id : String
deriving DecidableEq

/-- A representation document: the hook only branches on
representation context task name (pre_copy_last_published_workfile.py
line 157). -/
structure ReprDoc where
  task : String
deriving DecidableEq

/-- Environment oracle of CopyLastPublishedWorkfile.execute.
workfileExists is os.path.exists on the last workfile path;
useLastPublishedWorkfile is the use_last_published_workfile entry of the
profile returned by filter_profiles on the last_workfile_on_startup setting
(None when the profile predates the setting). -/
structure HookEnv where
  workfileExists : Bool
  useLastPublishedWorkfile : Option Bool

/-- Database oracle of CopyLastPublishedWorkfile.execute: the subsets of the
asset, get_last_version_by_subset_id, and get_representations keyed by
version id. -/
structure HookDB where
  subsets : List Subset
  lastVersionOf : String → Option VersionDoc
  representationsOf : String → List ReprDoc

/-- The context bag keys touched or read by the hook. -/
structure HookData where
  project_name : String
  asset_name : String
  task_name : String
  task_type : String
  asset_id : String
  last_workfile_path : String
  source_filepath : Option String
  launch_args : List String
deriving DecidableEq

/-- Outcome of CopyLastPublishedWorkfile.execute: a normal return carrying
the final context bag, or an uncaught NameError naming the unresolvable
identifier. -/
inductive HookResult where
  | returned (data : HookData)
  | nameError (name : String)
deriving DecidableEq

/-- CopyLastPublishedWorkfile.execute
(pre_copy_last_published_workfile.py lines 34-192, the live path up to the
unconditional return): return the context bag unchanged when the last
workfile already exists, when the setting profile is missing or disabled,
or when no subset, version or task-matching representation is found.  When
every guard passes, line 169 evaluates get_last_published_workfile_path, a
name that the module neither imports (lines 17-20 import only
download_last_published_workfile and get_subset_id from the sync-server
module) nor defines, so the call raises NameError before the writes of
lines 178 and 191 can run. -/
def CopyLastPublishedWorkfile.execute (env : HookEnv) (db : HookDB) (data : HookData) :
    HookResult :=
  if env.workfileExists then .returned data
  else
    match env.useLastPublishedWorkfile with
    | none => .returned data
    | some false => .returned data
    | some true =>
      match hookSelectSubsetId data.task_name db.subsets with
      | none => .returned data
      | some subset_id =>
        match db.lastVersionOf subset_id with
        | none => .returned data
        | some last_version_doc =>
          match (db.representationsOf last_version_doc.id).find?
              (fun r => r.task == data.task_name) with
          | none => .returned data
          | some _ =>
            .nameError "get_last_published_workfile_path"

/-- The condition under which the hook passes every guard and reaches the
get_last_published_workfile_path call of line 169: last workfile missing,
feature enabled, and a matching subset, version and task representation
found. -/
def hookReachesPathCall (env : HookEnv) (db : HookDB) (data : HookData) : Bool :=
  !env.workfileExists &&
  (match env.useLastPublishedWorkfile with
   | some true =>
     (match hookSelectSubsetId data.task_name db.subsets with
      | none => false
      | some subset_id =>
        match db.lastVersionOf subset_id with
        | none => false
        | some last_version_doc =>
          ((db.representationsOf last_version_doc.id).find?
             (fun r => r.task == data.task_name)).isSome)
   | _ => false)

/-- The guard conditions of the early returns in
CopyLastPublishedWorkfile.execute, in source order; the Dead variants belong
to the unreachable duplicate block after the unconditional return at line
192. -/
inductive HookCond where
  | lastWorkfileExists
  | settingsMissing
  | settingsDisabled
  | noFilteredSubsets
  | noMatchedSubset
  | noLastVersion
  | noWorkfileRepresentation
  | noProjectAndAssetDoc
  | noFilteredSubsetsDead
  | noMatchedSubsetDead
  | noLastVersionDead
  | noWorkfileRepresentationDead
deriving DecidableEq

/-- Statement-level abstraction of the body of
CopyLastPublishedWorkfile.execute: a guarded early return, a block of
assignments and external queries, a write into the context bag, a bare
return, or the sleep-polling while loop. -/
inductive HookStmt where
  | condReturn (c : HookCond)
  | compute
  | setData (key : String)
  | ret
  | sleepPoll
deriving DecidableEq

/-- The statements of CopyLastPublishedWorkfile.execute in source order
(pre_copy_last_published_workfile.py lines 46-313), including everything
after the bare return at line 192. -/
def hookBody : List HookStmt := [
  .condReturn .lastWorkfileExists,
  .compute,
  .condReturn .settingsMissing,
  .condReturn .settingsDisabled,
  .compute,
  .condReturn .noFilteredSubsets,
  .compute,
  .condReturn .noMatchedSubset,
  .compute,
  .condReturn .noLastVersion,
  .compute,
  .condReturn .noWorkfileRepresentation,
  .compute,
  .setData "last_workfile_path",
  .setData "source_filepath",
  .ret,
  .condReturn .noProjectAndAssetDoc,
  .compute,
  .condReturn .noFilteredSubsetsDead,
  .compute,
  .condReturn .noMatchedSubsetDead,
  .compute,
  .condReturn .noLastVersionDead,
  .compute,
  .condReturn .noWorkfileRepresentationDead,
  .compute,
  .sleepPoll,
  .compute,
  .setData "last_workfile_path",
  .setData "source_filepath"]

/-- The statements before the bare return at line 192. -/
def hookPre : List HookStmt := [
  .condReturn .lastWorkfileExists,
  .compute,
  .condReturn .settingsMissing,
  .condReturn .settingsDisabled,
  .compute,
  .condReturn .noFilteredSubsets,
  .compute,
  .condReturn .noMatchedSubset,
  .compute,
  .condReturn .noLastVersion,
  .compute,
  .condReturn .noWorkfileRepresentation,
  .compute,
  .setData "last_workfile_path",
  .setData "source_filepath"]

/-- The statements after the bare return at line 192. -/
def hookPost : List HookStmt := [
  .condReturn .noProjectAndAssetDoc,
  .compute,
  .condReturn .noFilteredSubsetsDead,
  .compute,
  .condReturn .noMatchedSubsetDead,
  .compute,
  .condReturn .noLastVersionDead,
  .compute,
  .condReturn .noWorkfileRepresentationDead,
  .compute,
  .sleepPoll,
  .compute,
  .setData "last_workfile_path",
  .setData "source_filepath"]

/-- Execution trace of a statement list under a valuation of the guard
conditions: a guarded return whose condition holds executes and stops, a
bare return executes and stops, every other statement executes and control
falls through to the next one. -/
def runHook (holds : HookCond → Bool) : List HookStmt → List HookStmt
  | [] => []
  | s :: rest =>
    match s with
    | .ret => [HookStmt.ret]
    | .condReturn c =>
      if holds c then [HookStmt.condReturn c]
      else HookStmt.condReturn c :: runHook holds rest
    | s => s :: runHook holds rest

/-- Modelled from the spec: the interval/collection abstraction of the
clique library.  A collection carries its set of numeric frame indexes. -/
structure Collection where
  indexes : List Int
deriving DecidableEq

/-- Modelled from the spec: a clique collection is contiguous when every
integer between its smallest and largest index is present; an index-free
collection has no gap. -/
def Collection.is_contiguous (c : Collection) : Bool :=
  match c.indexes.min?, c.indexes.max? with
  | some a, some b =>
    (List.range (b - a + 1).toNat).all (fun k => c.indexes.contains (a + (k : Int)))
  | _, _ => true

/-- The Python exceptions ValidateRenderedFrames.process can raise:
ValidationException (lines 66, 83, 88), IndexError from collections zero
indexing (line 72), ValueError from min or max of an empty index set
(lines 91-92), AssertionError from the assert statement (line 110). -/
inductive PyError where
  | validationError (msg : String)
  | indexError
  | valueError
  | assertionError
deriving DecidableEq

/-- Outcome of ValidateRenderedFrames.process: a normal return carrying the
final value written into instance data collection (none when nothing was
written), or a raised exception. -/
inductive ROutcome where
  | ok (collection : Option Collection)
  | error (e : PyError)
deriving DecidableEq

/-- Whether an outcome is a raised ValidationException. -/
def isValidationError : ROutcome → Bool
  | .error (.validationError _) => true
  | _ => false

/-- Outcome of one iteration of the representations loop: raise an
exception, return from the whole method carrying the collection written at
line 116, or fall through to the next iteration. -/
inductive BodyResult where
  | raise (e : PyError)
  | ret (c : Collection)
  | next
deriving DecidableEq

/-- A representation as accessed by the validator: repre.get files, absent
key modelled as none. -/
structure Repre where
  files : Option (List String)
deriving DecidableEq

/-- The instance fields read by ValidateRenderedFrames.process. -/
structure RenderInstance where
  representations : List Repre
  frameStartHandle : Int
  frameEndHandle : Int
  families : List String
deriving DecidableEq

/-- Python truthiness of repre.get files: falsy when the key is missing or
maps to an empty list. -/
def truthyFiles : Option (List String) → Bool
  | some (_ :: _) => true
  | _ => false

/-- The assert expression of validate_rendered_frames.py lines 110-112,
with the slate adjustment of lines 105-108 applied first: when slate is in
the instance families and the frame range length differs from the collected
frame count, the collected count drops by one and the start handle rises by
one; the assert requires the collected count to reach the frame range
length, the smallest collected index to be at most the start handle and the
largest to be at least the end handle. -/
def assertCond (inst : RenderInstance) (c : Collection) (coll_start coll_end : Int) : Prop :=
  let frame_length : Int := inst.frameEndHandle - inst.frameStartHandle + 1
  let n : Int := c.indexes.length
  let collected : Int :=
    if "slate" ∈ inst.families ∧ frame_length ≠ n then n - 1 else n
  let fstartH : Int :=
    if "slate" ∈ inst.families ∧ frame_length ≠ n then inst.frameStartHandle + 1
    else inst.frameStartHandle
  collected ≥ frame_length ∧ coll_start ≤ fstartH ∧ coll_end ≥ inst.frameEndHandle

instance (inst : RenderInstance) (c : Collection) (cs ce : Int) :
    Decidable (assertCond inst c cs ce) := by
  unfold assertCond
  infer_instance

/-- Validation of the first collection
(validate_rendered_frames.py lines 74-118): when the frame range length is
not one, a collection count other than one raises a ValidationException and
a non-contiguous collection raises a ValidationException; then the smallest
and largest indexes are taken (ValueError on an empty index set), the slate
adjustment is applied, the assert runs, and on success the collection is
written into instance data and the method returns. -/
def validateCollection (inst : RenderInstance) (collection : Collection)
    (numCollections : Nat) : BodyResult :=
  let frame_length : Int := inst.frameEndHandle - inst.frameStartHandle + 1
  if frame_length ≠ 1 ∧ numCollections ≠ 1 then
    .raise (.validationError "There are multiple collections in the folder")
  else if frame_length ≠ 1 ∧ collection.is_contiguous = false then
    .raise (.validationError "Some frames appear to be missing")
  else
    match collection.indexes.min?, collection.indexes.max? with
    | some coll_start, some coll_end =>
      if assertCond inst collection coll_start coll_end then .ret collection
      else .raise .assertionError
    | _, _ => .raise .valueError

/-- Indexing of the assembled collections
(validate_rendered_frames.py line 72): collections zero is taken before any
check on how many collections there are, so an empty collection list raises
IndexError. -/
def checkCollection (inst : RenderInstance) (collections : List Collection) : BodyResult :=
  match collections with
  | [] => .raise .indexError
  | collection :: _ => validateCollection inst collection collections.length

/-- Lines 68-118 for a truthy files list: assemble the file names and
process the first collection.  The assemble oracle stands for
clique.assemble, returning the collection list and the remainder. -/
def processFiles (assemble : List String → List Collection × List String)
    (inst : RenderInstance) (files : List String) : BodyResult :=
  checkCollection inst (assemble files).1

/-- One iteration of the representations loop
(validate_rendered_frames.py lines 60-118): falsy files raise the
ValidationException of line 66, otherwise the files are assembled and
validated.  Every path raises or returns; no path falls through to a next
iteration. -/
def processRepre (assemble : List String → List Collection × List String)
    (inst : RenderInstance) (repre : Repre) : BodyResult :=
  match repre.files with
  | some (f :: fs) => processFiles assemble inst (f :: fs)
  | _ => .raise (.validationError "no frames were collected, you need to render them")

/-- The for loop over instance data representations: run the body on each
representation in order; a raise propagates, a return ends the method with
the written collection, fall-through continues with the remaining
representations; an exhausted loop ends the method without having written a
collection. -/
def processLoop (assemble : List String → List Collection × List String)
    (inst : RenderInstance) : List Repre → ROutcome
  | [] => .ok none
  | repre :: rest =>
    match processRepre assemble inst repre with
    | .raise e => .error e
    | .ret c => .ok (some c)
    | .next => processLoop assemble inst rest

/-- ValidateRenderedFrames.process (validate_rendered_frames.py lines
58-118), parameterized by the clique.assemble oracle. -/
def ValidateRenderedFrames.process (assemble : List String → List Collection × List String)
    (inst : RenderInstance) : ROutcome :=
  processLoop assemble inst inst.representations

/-- A kitsu review representation: published_path read with get. -/
structure KitsuRepre where
  published_path : Option String
deriving DecidableEq

/-- A truthy kitsu comment: the dict written by the upstream kitsu comment
integrator, carrying the comment id. -/
structure KitsuComment where
  id : String
deriving DecidableEq

/-- The instance fields read by IntegrateKitsuReview.process.
kitsu_task_id is the chained lookup instance data kitsu_task id
(integrate_kitsu_review.py line 15); none means the chained lookup raises
KeyError.  kitsu_comment is the entry read with get at line 16 when it is
truthy, none when the entry is missing or falsy.  representations is the
entry read with get and default empty list at line 26. -/
structure KitsuInstance where
  kitsu_task_id : Option String
  kitsu_comment : Option KitsuComment
  representations : Option (List KitsuRepre)
deriving DecidableEq

/-- One gazu.task.add_preview call with its arguments
(integrate_kitsu_review.py lines 30-32). -/
structure KitsuPreviewCall where
  task : String
  comment : String
  preview_file_path : Option String
  normalize_movie : Bool
deriving DecidableEq

/-- Outcome of IntegrateKitsuReview.process: a KeyError from the task
lookup, an early return after the debug log with no preview pushed, or a
normal return carrying the add_preview calls made. -/
inductive KitsuOutcome where
  | keyError (key : String)
  | skipped
  | done (previews : List KitsuPreviewCall)
deriving DecidableEq

/-- IntegrateKitsuReview.process (integrate_kitsu_review.py lines 14-33):
read the task id, return early when no truthy comment exists, otherwise
call gazu.task.add_preview for every representation.  The instance data
mapping is never written. -/
def IntegrateKitsuReview.process (inst : KitsuInstance) : KitsuOutcome :=
  match inst.kitsu_task_id with
  | none => .keyError "kitsu_task"
  | some task =>
    match inst.kitsu_comment with
    | none => .skipped
    | some comment =>
      .done ((inst.representations.getD []).map
        (fun r => ⟨task, comment.id, r.published_path, true⟩))

/-- Exceptions ValidateMayaColorSpace.process can raise: the KeyError from
the maketx lookup or the explicit raise. -/
inductive MayaErr where
  | keyError (key : String)
  | raised (msg : String)
deriving DecidableEq

/-- The instance fields read by ValidateMayaColorSpace.process: the maketx
entry, none when the key is missing, otherwise its truthiness. -/
structure LookInstance where
  maketx : Option Bool
deriving DecidableEq

/-- ValidateMayaColorSpace.process (validate_look_color_space.py lines
19-26): ocio_maya is the oracle value of the colorManagementPrefs query;
when both it and the maketx entry are truthy the plugin raises, otherwise
it returns with the instance data untouched. -/
def ValidateMayaColorSpace.process (ocio_maya : Bool) (inst : LookInstance) :
    Except MayaErr LookInstance :=
  match inst.maketx with
  | none => .error (.keyError "maketx")
  | some maketx =>
    if ocio_maya && maketx then
      .error (.raised "Maya is color managed and maketx option is on. OpenPype doesn\x27t support this combination yet.")
    else
      .ok inst

/-- Concrete subsets for exercising the two resolution flows: both carry the
workfile family and both names contain the task name model. -/
def subsetA : Subset := ⟨"subset-A", "workfileModelMain", some "workfile", []⟩

/-- Second concrete workfile subset whose name also contains model. -/
def subsetB : Subset := ⟨"subset-B", "workfileModelSecond", some "workfile", []⟩

/-- Concrete workfile subset whose name does not contain model. -/
def subsetR : Subset := ⟨"subset-R", "workfileRigMain", some "workfile", []⟩

/-- Concrete non-workfile subset. -/
def subsetN : Subset := ⟨"subset-N", "renderModelMain", some "render", []⟩

/-- Concrete last-version oracle distinguishing the two subsets. -/
def versionNoC2 : String → Option Nat :=
  fun sid => if sid == "subset-A" then some 7 else some 8

/-- Concrete environment for the hook: no local workfile yet, feature
enabled. -/
def envW : HookEnv := ⟨false, some true⟩

/-- Concrete database with two workfile subsets, of which only subsetB has a
version and a task representation. -/
def dbW : HookDB :=
  ⟨[subsetR, subsetB],
   fun sid => if sid == "subset-B" then some ⟨"version-7"⟩ else none,
   fun vid => if vid == "version-7" then [⟨"model"⟩] else []⟩

/-- Concrete database holding exactly one workfile subset. -/
def dbOne : HookDB := ⟨[subsetA, subsetN], fun _ => none, fun _ => []⟩

/-- Concrete context bag for the hook. -/
def dataW : HookData :=
  ⟨"proj", "asset", "model", "Modeling", "asset-1", "missing.blend", none, []⟩

/-- Concrete assemble oracle returning one two-frame collection with a gap. -/
def assembleGap : List String → List Collection × List String :=
  fun _ => ([⟨[1, 3]⟩], [])

/-- Concrete assemble oracle returning one contiguous three-frame
collection. -/
def assembleFull : List String → List Collection × List String :=
  fun _ => ([⟨[1, 2, 3]⟩], [])

/-- Concrete assemble oracle returning one single-frame collection. -/
def assembleOne : List String → List Collection × List String :=
  fun _ => ([⟨[1]⟩], [])

/-- Concrete assemble oracle placing every file in the remainder, as
clique.assemble does for names without a numeric index. -/
def assembleNone : List String → List Collection × List String :=
  fun files => ([], files)

/-- Concrete render instance with one three-frame representation. -/
def instFull : RenderInstance := ⟨[⟨some ["a.1.exr", "a.2.exr", "a.3.exr"]⟩], 1, 3, []⟩

/-- Concrete render instance with a valid first representation and an empty
second representation. -/
def instTwoRepres : RenderInstance := ⟨[⟨some ["x.1.exr"]⟩, ⟨some []⟩], 1, 1, []⟩

/-- Concrete render instance whose first representation has an empty files
list. -/
def instEmptyFiles : RenderInstance := ⟨[⟨some []⟩], 1, 1, []⟩

/-- Concrete render instance with one representation whose file name has no
frame index, over a single-frame range. -/
def instNoIndex : RenderInstance := ⟨[⟨some ["foo"]⟩], 1, 1, []⟩
/-- Every executed statement is a statement of the body. -/
theorem mem_of_runHook (holds : HookCond → Bool) :
    ∀ (l : List HookStmt) (x : HookStmt), x ∈ runHook holds l → x ∈ l := by
  intro l
  induction l with
  | nil => intro x hx; simp [runHook] at hx
  | cons s rest ih =>
    intro x hx
    cases s with
    | ret => simp [runHook] at hx; simp [hx]
    | condReturn c =>
      by_cases hc : holds c
      · simp [runHook, hc] at hx; simp [hx]
      · simp [runHook, hc] at hx
        rcases hx with hx | hx
        · simp [hx]
        · exact List.mem_cons_of_mem _ (ih x hx)
    | compute =>
      simp [runHook] at hx
      rcases hx with hx | hx
      · simp [hx]
      · exact List.mem_cons_of_mem _ (ih x hx)
    | setData k =>
      simp [runHook] at hx
      rcases hx with hx | hx
      · simp [hx]
      · exact List.mem_cons_of_mem _ (ih x hx)
    | sleepPoll =>
      simp [runHook] at hx
      rcases hx with hx | hx
      · simp [hx]
      · exact List.mem_cons_of_mem _ (ih x hx)

/-- Statements placed after a bare return never change the trace. -/
theorem runHook_stop (holds : HookCond → Bool) :
    ∀ (pre post : List HookStmt),
      runHook holds (pre ++ HookStmt.ret :: post) = runHook holds (pre ++ [HookStmt.ret]) := by
  intro pre
  induction pre with
  | nil => intro post; simp [runHook]
  | cons s rest ih =>
    intro post
    cases s with
    | ret => simp [runHook]
    | condReturn c =>
      simp only [List.cons_append, runHook, List.append_eq]
      by_cases hc : holds c
      · rw [if_pos hc, if_pos hc]
      · rw [if_neg hc, if_neg hc, ih post]
    | compute =>
      simp only [List.cons_append, runHook, List.append_eq]
      rw [ih post]
    | setData k =>
      simp only [List.cons_append, runHook, List.append_eq]
      rw [ih post]
    | sleepPoll =>
      simp only [List.cons_append, runHook, List.append_eq]
      rw [ih post]


/-- Claim C3: the sleep-polling while loop of
CopyLastPublishedWorkfile.execute is never executed: under every valuation
of the guard conditions, the execution trace of the method body stops at or
before the unconditional return preceding that loop, so the sleep statement
never appears in the trace. -/
theorem C3_sleep_poll_unreachable (holds : HookCond → Bool) :
    HookStmt.sleepPoll ∉ runHook holds hookBody := by
  intro hmem
  have hsplit : hookBody = hookPre ++ HookStmt.ret :: hookPost := rfl
  rw [hsplit, runHook_stop] at hmem
  have hin := mem_of_runHook holds _ _ hmem
  exact absurd hin (by decide)

/-- Witness for C3 at a concrete guard valuation. -/
theorem C3_sleep_poll_unreachable_witness :
    HookStmt.sleepPoll ∉ runHook (fun _ => false) hookBody :=
  C3_sleep_poll_unreachable (fun _ => false)

/-- Claim C9: ValidateRenderedFrames.process indexes the assembled
collection list before checking how many collections it holds, so whenever
the first representation has a non-empty files list that assembles into
zero collections (every file in the remainder), the method fails with an
IndexError and not with a ValidationException, whatever the frame range
length is. -/
theorem C9_index_error_before_count (assemble : List String → List Collection × List String)
    (inst : RenderInstance) (r : Repre) (rest : List Repre) (f : String) (fs : List String)
    (hrep : inst.representations = r :: rest)
    (hfiles : r.files = some (f :: fs))
    (hcol : (assemble (f :: fs)).1 = []) :
    ValidateRenderedFrames.process assemble inst = .error .indexError ∧
    isValidationError (ValidateRenderedFrames.process assemble inst) = false := by
  have hb : processRepre assemble inst r = .raise .indexError := by
    simp [processRepre, hfiles, processFiles, checkCollection, hcol]
  have hp : ValidateRenderedFrames.process assemble inst = .error .indexError := by
    unfold ValidateRenderedFrames.process
    rw [hrep]
    simp [processLoop, hb]
  exact ⟨hp, by rw [hp]; rfl⟩

/-- Witness for C9: a lone file name without a frame index over a
single-frame range. -/
theorem C9_index_error_before_count_witness :
    ValidateRenderedFrames.process assembleNone instNoIndex = .error .indexError ∧
    isValidationError (ValidateRenderedFrames.process assembleNone instNoIndex) = false :=
  C9_index_error_before_count assembleNone instNoIndex ⟨some ["foo"]⟩ [] "foo" []
    rfl rfl rfl

/-- The loop body of ValidateRenderedFrames.process never falls through to
another iteration: every path raises or returns. -/
theorem processRepre_ne_next (assemble : List String → List Collection × List String)
    (inst : RenderInstance) (repre : Repre) :
    processRepre assemble inst repre ≠ .next := by
  unfold processRepre
  cases hfl : repre.files with
  | none => simp
  | some l =>
    cases l with
    | nil => simp
    | cons f fs =>
      simp only [processFiles, checkCollection]
      cases hc : (assemble (f :: fs)).1 with
      | nil => simp
      | cons c cs =>
        unfold validateCollection
        intro h
        repeat' split at h
        all_goals try simp only [] at h
        all_goals try split_ifs at h
        all_goals simp_all

/-- Claim C10: ValidateRenderedFrames.process returns from inside the loop
over the representations after handling the first one, so on an instance
with two or more representations the outcome is the outcome on the first
representation alone, and any collection written into instance data comes
from the first representation. -/
theorem C10_first_representation_only
    (assemble : List String → List Collection × List String)
    (inst : RenderInstance) (r1 r2 : Repre) (rest : List Repre)
    (hrep : inst.representations = r1 :: r2 :: rest) :
    ValidateRenderedFrames.process assemble inst =
      ValidateRenderedFrames.process assemble { inst with representations := [r1] } ∧
    ∀ c, ValidateRenderedFrames.process assemble inst = .ok (some c) →
      processRepre assemble inst r1 = .ret c := by
  have hone : ValidateRenderedFrames.process assemble { inst with representations := [r1] } =
      (match processRepre assemble inst r1 with
       | .raise e => ROutcome.error e
       | .ret c => ROutcome.ok (some c)
       | .next => ROutcome.ok none) := rfl
  have hmain : ValidateRenderedFrames.process assemble inst =
      (match processRepre assemble inst r1 with
       | .raise e => ROutcome.error e
       | .ret c => ROutcome.ok (some c)
       | .next => processLoop assemble inst (r2 :: rest)) := by
    unfold ValidateRenderedFrames.process
    rw [hrep]
    rfl
  cases hb : processRepre assemble inst r1 with
  | raise e =>
    rw [hmain, hone, hb]
    exact ⟨rfl, fun c hc => by simp at hc⟩
  | ret c0 =>
    rw [hmain, hone, hb]
    refine ⟨rfl, fun c hc => ?_⟩
    simp only [ROutcome.ok.injEq, Option.some.injEq] at hc
    cases hc
    rfl
  | next => exact absurd hb (processRepre_ne_next assemble inst r1)

/-- Witness for C10 on a concrete two-representation instance. -/
theorem C10_first_representation_only_witness :
    ValidateRenderedFrames.process assembleOne instTwoRepres =
      ValidateRenderedFrames.process assembleOne
        { instTwoRepres with representations := [⟨some ["x.1.exr"]⟩] } ∧
    ∀ c, ValidateRenderedFrames.process assembleOne instTwoRepres = .ok (some c) →
      processRepre assembleOne instTwoRepres ⟨some ["x.1.exr"]⟩ = .ret c :=
  C10_first_representation_only assembleOne instTwoRepres
    ⟨some ["x.1.exr"]⟩ ⟨some []⟩ [] rfl

/-- Claim C5 (amended): when the first representation of the instance has a
missing or empty files entry, ValidateRenderedFrames.process raises the
ValidationException with the message of line 63-64 and writes nothing into
instance data; later representations are never examined. -/
theorem C5_first_repre_empty_files_raises
    (assemble : List String → List Collection × List String)
    (inst : RenderInstance) (r : Repre) (rest : List Repre)
    (hrep : inst.representations = r :: rest)
    (hf : truthyFiles r.files = false) :
    ValidateRenderedFrames.process assemble inst =
      .error (.validationError "no frames were collected, you need to render them") := by
  have hb : processRepre assemble inst r =
      .raise (.validationError "no frames were collected, you need to render them") := by
    unfold processRepre
    cases hfl : r.files with
    | none => rfl
    | some l =>
      cases l with
      | nil => rfl
      | cons a as => rw [hfl] at hf; simp [truthyFiles] at hf
  unfold ValidateRenderedFrames.process
  rw [hrep]
  simp [processLoop, hb]

/-- Witness for the amended C5 on a concrete instance whose only
representation has an empty files list. -/
theorem C5_first_repre_empty_files_raises_witness :
    ValidateRenderedFrames.process assembleOne instEmptyFiles =
      .error (.validationError "no frames were collected, you need to render them") :=
  C5_first_repre_empty_files_raises assembleOne instEmptyFiles ⟨some []⟩ [] rfl rfl

/-- Counterexample to claim C5 as stated: an instance whose second
representation has an empty files entry, while the first representation
validates, makes process return normally instead of raising a
ValidationException. -/
theorem C5_counterexample :
    (∃ r ∈ instTwoRepres.representations, truthyFiles r.files = false) ∧
    isValidationError (ValidateRenderedFrames.process assembleOne instTwoRepres) = false := by
  decide

/-- Claim C6: given the maketx entry is present in the instance data,
ValidateMayaColorSpace.process raises an exception if and only if the OCIO
color management query is truthy and the maketx entry is truthy, and every
normal return leaves the instance data unchanged. -/
theorem C6_ocio_maketx (ocio_maya : Bool) (inst : LookInstance) (v : Bool)
    (hm : inst.maketx = some v) :
    ((∃ e, ValidateMayaColorSpace.process ocio_maya inst = .error e) ↔
      (ocio_maya = true ∧ v = true)) ∧
    ∀ d, ValidateMayaColorSpace.process ocio_maya inst = .ok d → d = inst := by
  unfold ValidateMayaColorSpace.process
  rw [hm]
  cases ocio_maya <;> cases v <;> simp

/-- Witness for C6 with color management on and maketx on. -/
theorem C6_ocio_maketx_witness :
    ((∃ e, ValidateMayaColorSpace.process true ⟨some true⟩ = .error e) ↔
      (true = true ∧ true = true)) ∧
    ∀ d, ValidateMayaColorSpace.process true ⟨some true⟩ = .ok d → d = ⟨some true⟩ :=
  C6_ocio_maketx true ⟨some true⟩ true rfl

/-- Claim C7: given the kitsu task lookup succeeds, IntegrateKitsuReview
.process returns early with no preview pushed when no truthy kitsu comment
entry exists, and otherwise calls gazu.task.add_preview once for every
representation of the instance; the instance data is never written. -/
theorem C7_kitsu_review (inst : KitsuInstance) (task : String)
    (htask : inst.kitsu_task_id = some task) :
    (inst.kitsu_comment = none → IntegrateKitsuReview.process inst = .skipped) ∧
    ∀ comment, inst.kitsu_comment = some comment →
      IntegrateKitsuReview.process inst =
        .done ((inst.representations.getD []).map
          (fun r => ⟨task, comment.id, r.published_path, true⟩)) := by
  unfold IntegrateKitsuReview.process
  rw [htask]
  constructor
  · intro hc; rw [hc]
  · intro comment hc; rw [hc]

/-- Witness for C7 on a concrete instance with a task, a comment and two
representations. -/
theorem C7_kitsu_review_witness :
    ((⟨some "task-1", some ⟨"comment-1"⟩, some [⟨some "out.mov"⟩, ⟨none⟩]⟩ :
        KitsuInstance).kitsu_comment = none →
      IntegrateKitsuReview.process
        ⟨some "task-1", some ⟨"comment-1"⟩, some [⟨some "out.mov"⟩, ⟨none⟩]⟩ = .skipped) ∧
    ∀ comment,
      (⟨some "task-1", some ⟨"comment-1"⟩, some [⟨some "out.mov"⟩, ⟨none⟩]⟩ :
        KitsuInstance).kitsu_comment = some comment →
      IntegrateKitsuReview.process
          ⟨some "task-1", some ⟨"comment-1"⟩, some [⟨some "out.mov"⟩, ⟨none⟩]⟩ =
        .done ((Option.getD (some ([⟨some "out.mov"⟩, ⟨none⟩] : List KitsuRepre)) []).map
          (fun r => (⟨"task-1", comment.id, r.published_path, true⟩ : KitsuPreviewCall))) :=
  C7_kitsu_review ⟨some "task-1", some ⟨"comment-1"⟩, some [⟨some "out.mov"⟩, ⟨none⟩]⟩
    "task-1" rfl

/-- A list whose filtering yields exactly one element has that element as
its first find. -/
theorem find?_of_filter_singleton {α : Type} (p : α → Bool) :
    ∀ (l : List α) (a : α), l.filter p = [a] → l.find? p = some a := by
  intro l
  induction l with
  | nil => intro a h; simp at h
  | cons x xs ih =>
    intro a h
    by_cases hx : p x
    · rw [List.filter_cons_of_pos hx] at h
      simp only [List.cons.injEq] at h
      rw [List.find?_cons_of_pos _ hx, h.1]
    · rw [List.filter_cons_of_neg hx] at h
      rw [List.find?_cons_of_neg _ hx]
      exact ih a h

/-- Counterexample to claim C2 as stated: two workfile subsets whose names
both contain the task name make the hook select the first match while the
blender function selects the last match, and the two flows then fetch
different last versions from the same database. -/
theorem C2_counterexample :
    hookSelectSubsetId "model" [subsetA, subsetB] = some "subset-A" ∧
    blenderSelectSubsetId "model" [subsetA, subsetB] = .selected "subset-B" ∧
    ("subset-A" : String) ≠ "subset-B" ∧
    hookLastVersion versionNoC2 "model" [subsetA, subsetB] = some 7 ∧
    blenderLastVersion versionNoC2 "model" [subsetA, subsetB] = some 8 := by
  decide

/-- Claim C2 (amended): on identical database state and inputs the two
flows agree whenever more than one workfile subset exists and exactly one
of them has the task name in its name: both select that subset id and both
fetch the last version by that same id; the flows are not equivalent in
general. -/
theorem C2_amended_unique_match (task_name : String) (subsets : List Subset) (s : Subset)
    (hlen : 1 < (filterWorkfileSubsets subsets).length)
    (hmatch : (filterWorkfileSubsets subsets).filter (subsetMatches task_name) = [s]) :
    hookSelectSubsetId task_name subsets = some s.id ∧
    blenderSelectSubsetId task_name subsets = .selected s.id ∧
    ∀ (V : Type) (versionOf : String → Option V),
      hookLastVersion versionOf task_name subsets =
        blenderLastVersion versionOf task_name subsets := by
  have hfind : (filterWorkfileSubsets subsets).find? (subsetMatches task_name) = some s :=
    find?_of_filter_singleton _ _ _ hmatch
  have hhook : hookSelectSubsetId task_name subsets = some s.id := by
    unfold hookSelectSubsetId
    simp only []
    rw [if_pos hlen, hfind]
    rfl
  have hblender : blenderSelectSubsetId task_name subsets = .selected s.id := by
    unfold blenderSelectSubsetId
    simp only []
    cases hf : filterWorkfileSubsets subsets with
    | nil => rw [hf] at hlen; simp at hlen
    | cons first rest =>
      cases rest with
      | nil => rw [hf] at hlen; simp at hlen
      | cons b bs =>
        rw [hf] at hmatch
        simp only [List.isEmpty_cons, if_false, Bool.false_eq_true]
        rw [hmatch]
        rfl
  refine ⟨hhook, hblender, fun V versionOf => ?_⟩
  unfold hookLastVersion blenderLastVersion
  rw [hhook, hblender]
  rfl

/-- Witness for the amended C2: two workfile subsets of which exactly one
matches the task name. -/
theorem C2_amended_unique_match_witness :
    hookSelectSubsetId "model" [subsetR, subsetB] = some subsetB.id ∧
    blenderSelectSubsetId "model" [subsetR, subsetB] = .selected subsetB.id ∧
    ∀ (V : Type) (versionOf : String → Option V),
      hookLastVersion versionOf "model" [subsetR, subsetB] =
        blenderLastVersion versionOf "model" [subsetR, subsetB] :=
  C2_amended_unique_match "model" [subsetR, subsetB] subsetB (by decide) (by decide)

/-- Claim C8: with exactly one workfile subset for the asset the hook never
selects a subset (task-name matching is attempted only when more than one
filtered subset exists) and returns with the context bag unchanged under
every environment, while download_last_workfile selects that single
subset. -/
theorem C8_single_subset (env : HookEnv) (db : HookDB) (data : HookData) (s : Subset)
    (hone : filterWorkfileSubsets db.subsets = [s]) :
    CopyLastPublishedWorkfile.execute env db data = .returned data ∧
    hookSelectSubsetId data.task_name db.subsets = none ∧
    blenderSelectSubsetId data.task_name db.subsets = .selected s.id := by
  have hsel : hookSelectSubsetId data.task_name db.subsets = none := by
    simp [hookSelectSubsetId, hone]
  refine ⟨?_, hsel, ?_⟩
  · unfold CopyLastPublishedWorkfile.execute
    rw [hsel]
    cases env.workfileExists with
    | true => rfl
    | false =>
      cases env.useLastPublishedWorkfile with
      | none => rfl
      | some b => cases b <;> rfl
  · simp [blenderSelectSubsetId, hone]

/-- Witness for C8: a database holding one workfile subset and one render
subset, under an enabled environment. -/
theorem C8_single_subset_witness :
    CopyLastPublishedWorkfile.execute envW dbOne dataW = .returned dataW ∧
    hookSelectSubsetId dataW.task_name dbOne.subsets = none ∧
    blenderSelectSubsetId dataW.task_name dbOne.subsets = .selected subsetA.id :=
  C8_single_subset envW dbOne dataW subsetA (by decide)

/-- Claim C4: the intended behaviour (the hook docstring and the spec both
say the published workfile is substituted into the context bag) is
unreachable in the code as written: whenever the last workfile is missing,
the setting enables the feature and a matching subset, version and
representation are found, execute raises NameError on the unresolvable
get_last_published_workfile_path call of line 169 before either write, and
in every other case it returns with every key of the context bag
unchanged; data is never mutated on any path. -/
theorem C4_success_path_name_error (env : HookEnv) (db : HookDB) (data : HookData) :
    (hookReachesPathCall env db data = true →
      CopyLastPublishedWorkfile.execute env db data =
        .nameError "get_last_published_workfile_path") ∧
    (hookReachesPathCall env db data = false →
      CopyLastPublishedWorkfile.execute env db data = .returned data) := by
  unfold CopyLastPublishedWorkfile.execute hookReachesPathCall
  cases env.workfileExists with
  | true => simp
  | false =>
    cases env.useLastPublishedWorkfile with
    | none => simp
    | some b =>
      cases b with
      | false => simp
      | true =>
        cases hsel : hookSelectSubsetId data.task_name db.subsets with
        | none => simp [hsel]
        | some sid =>
          cases hv : db.lastVersionOf sid with
          | none => simp [hsel, hv]
          | some ver =>
            cases hf : (db.representationsOf ver.id).find?
                (fun r => r.task == data.task_name) with
            | none => simp [hsel, hv, hf]
            | some repre => simp [hsel, hv, hf]

/-- Witness for C4: concrete data passing every guard makes execute raise
the NameError instead of writing the workfile keys. -/
theorem C4_success_path_name_error_witness :
    hookReachesPathCall envW dbW dataW = true ∧
    CopyLastPublishedWorkfile.execute envW dbW dataW =
      .nameError "get_last_published_workfile_path" :=
  ⟨by decide, (C4_success_path_name_error envW dbW dataW).1 (by decide)⟩

/-- With a frame range length other than one and a collection count other
than one, validation raises the multiple-collections ValidationException. -/
theorem validateCollection_multi (inst : RenderInstance) (c : Collection) (n : Nat)
    (hfl : inst.frameEndHandle - inst.frameStartHandle + 1 ≠ 1) (hn : n ≠ 1) :
    validateCollection inst c n =
      .raise (.validationError "There are multiple collections in the folder") := by
  simp only [validateCollection]
  rw [if_pos ⟨hfl, hn⟩]

/-- With a frame range length other than one, a single non-contiguous
collection raises the missing-frames ValidationException. -/
theorem validateCollection_gap (inst : RenderInstance) (c : Collection)
    (hfl : inst.frameEndHandle - inst.frameStartHandle + 1 ≠ 1)
    (hcontig : c.is_contiguous = false) :
    validateCollection inst c 1 =
      .raise (.validationError "Some frames appear to be missing") := by
  simp only [validateCollection]
  rw [if_neg (fun h => h.2 rfl), if_pos ⟨hfl, hcontig⟩]

/-- When the guards before the assert pass, validation reduces to the
assert on the slate-adjusted counts and bounds. -/
theorem validateCollection_assert (inst : RenderInstance) (c : Collection) (n : Nat)
    (cs ce : Int)
    (hok : inst.frameEndHandle - inst.frameStartHandle + 1 = 1 ∨
      (n = 1 ∧ c.is_contiguous = true))
    (hmin : c.indexes.min? = some cs) (hmax : c.indexes.max? = some ce) :
    validateCollection inst c n =
      if assertCond inst c cs ce then .ret c else .raise .assertionError := by
  have h1 : ¬(inst.frameEndHandle - inst.frameStartHandle + 1 ≠ 1 ∧ n ≠ 1) := by
    rcases hok with hfl | ⟨hn, _⟩
    · exact fun h => h.1 hfl
    · exact fun h => h.2 hn
  have h2 : ¬(inst.frameEndHandle - inst.frameStartHandle + 1 ≠ 1 ∧
      c.is_contiguous = false) := by
    rcases hok with hfl | ⟨_, hcont⟩
    · exact fun h => h.1 hfl
    · intro h; rw [hcont] at h; exact absurd h.2 (by simp)
  simp only [validateCollection]
  rw [if_neg h1, if_neg h2, hmin, hmax]

/-- Claim C1: for an instance whose first representation has a truthy files
list, when the frame range length exceeds one, assembling into more than
one collection or into a single non-contiguous collection raises a
ValidationException; and whenever control reaches the assert (one-frame
range, or exactly one contiguous collection), the method fails with the
AssertionError exactly when the slate-adjusted collected count falls short
of the frame range length, the smallest index exceeds the adjusted start
handle, or the largest index falls short of the end handle. -/
theorem C1_frame_range_validation
    (assemble : List String → List Collection × List String)
    (inst : RenderInstance) (r : Repre) (rest : List Repre) (f : String) (fs : List String)
    (hrep : inst.representations = r :: rest)
    (hfiles : r.files = some (f :: fs)) :
    (1 < inst.frameEndHandle - inst.frameStartHandle + 1 →
      (1 < (assemble (f :: fs)).1.length ∨
        (∃ c, (assemble (f :: fs)).1 = [c] ∧ c.is_contiguous = false)) →
      ∃ msg, ValidateRenderedFrames.process assemble inst =
        .error (.validationError msg)) ∧
    (∀ (c : Collection) (restc : List Collection) (cs ce : Int),
      (assemble (f :: fs)).1 = c :: restc →
      c.indexes.min? = some cs →
      c.indexes.max? = some ce →
      (inst.frameEndHandle - inst.frameStartHandle + 1 = 1 ∨
        (restc = [] ∧ c.is_contiguous = true)) →
      (ValidateRenderedFrames.process assemble inst = .error .assertionError ↔
        ¬ assertCond inst c cs ce)) := by
  have hpr : processRepre assemble inst r = checkCollection inst (assemble (f :: fs)).1 := by
    unfold processRepre
    rw [hfiles]
    rfl
  have hproc : ∀ (b : BodyResult), checkCollection inst (assemble (f :: fs)).1 = b →
      ValidateRenderedFrames.process assemble inst =
        (match b with
         | .raise e => ROutcome.error e
         | .ret c => ROutcome.ok (some c)
         | .next => processLoop assemble inst rest) := by
    intro b hb
    unfold ValidateRenderedFrames.process
    rw [hrep]
    have hstep : processLoop assemble inst (r :: rest) =
        (match processRepre assemble inst r with
         | .raise e => ROutcome.error e
         | .ret c => ROutcome.ok (some c)
         | .next => processLoop assemble inst rest) := rfl
    rw [hstep, hpr, hb]
  constructor
  · intro hfl hcase
    rcases hcase with hlen | ⟨c, hcol, hcontig⟩
    · cases hc : (assemble (f :: fs)).1 with
      | nil => rw [hc] at hlen; simp at hlen
      | cons c restc =>
        rw [hc] at hlen
        have hfl1 : inst.frameEndHandle - inst.frameStartHandle + 1 ≠ 1 := by omega
        have hn1 : (c :: restc).length ≠ 1 := by
          simp only [List.length_cons] at hlen ⊢
          omega
        have hv : validateCollection inst c ((c :: restc).length) =
            .raise (.validationError "There are multiple collections in the folder") :=
          validateCollection_multi inst c _ hfl1 hn1
        have hh := hproc
          (.raise (.validationError "There are multiple collections in the folder"))
          (by rw [hc]; exact hv)
        exact ⟨"There are multiple collections in the folder", hh⟩
    · have hv : validateCollection inst c 1 =
          .raise (.validationError "Some frames appear to be missing") :=
        validateCollection_gap inst c (by omega) hcontig
      have hh := hproc (.raise (.validationError "Some frames appear to be missing"))
        (by rw [hcol]; exact hv)
      exact ⟨"Some frames appear to be missing", hh⟩
  · intro c restc cs ce hcol hmin hmax hok
    have hv : validateCollection inst c ((c :: restc).length) =
        if assertCond inst c cs ce then .ret c else .raise .assertionError := by
      refine validateCollection_assert inst c _ cs ce ?_ hmin hmax
      rcases hok with h | ⟨hrc, hcont⟩
      · exact Or.inl h
      · refine Or.inr ⟨?_, hcont⟩
        simp [hrc]
    have hh := hproc
      (if assertCond inst c cs ce then BodyResult.ret c else BodyResult.raise PyError.assertionError)
      (by rw [hcol]; exact hv)
    rw [hh]
    by_cases hac : assertCond inst c cs ce
    · rw [if_pos hac]
      simp [hac]
    · rw [if_neg hac]
      simp [hac]

/-- Witness for C1: a gapped collection over a three-frame range raises a
ValidationException, and a full contiguous collection reaches the assert,
which here succeeds. -/
theorem C1_frame_range_validation_witness :
    (∃ msg, ValidateRenderedFrames.process assembleGap instFull =
      .error (.validationError msg)) ∧
    (ValidateRenderedFrames.process assembleFull instFull = .error .assertionError ↔
      ¬ assertCond instFull ⟨[1, 2, 3]⟩ 1 3) :=
  ⟨(C1_frame_range_validation assembleGap instFull
      ⟨some ["a.1.exr", "a.2.exr", "a.3.exr"]⟩ [] "a.1.exr" ["a.2.exr", "a.3.exr"]
      rfl rfl).1 (by decide) (Or.inr ⟨⟨[1, 3]⟩, rfl, by decide⟩),
   (C1_frame_range_validation assembleFull instFull
      ⟨some ["a.1.exr", "a.2.exr", "a.3.exr"]⟩ [] "a.1.exr" ["a.2.exr", "a.3.exr"]
      rfl rfl).2 ⟨[1, 2, 3]⟩ [] 1 3 rfl (by decide) (by decide)
      (Or.inr ⟨rfl, by decide⟩)⟩
